import Mathlib

/-!
Verification of the reconcile-and-await engine of the psetup package.

Each definition below is a shallow embedding of one Python function of the
repository (module and function named in its doc comment).  Python dicts with
a fixed key set become structures with `Option` fields (a `none` field models
an absent key); raised exceptions become `Except` / explicit error outcomes;
the remote API is a caller-supplied stub (`fetch : Nat → Operation` gives the
payload returned by the k-th `request.execute()` poll).
-/

namespace Psetup

/-- Operation payload: a dict with the optional keys `name`, `done`, `error`,
`response`.  `done? = none` models a dict without the `done` key; the error
and response payloads are kept opaque as strings. -/
structure Operation where
  name? : Option String
  done? : Option Bool
  error? : Option String
  response? : Option String
deriving DecidableEq

/-- Python exceptions raised by the embedded functions. -/
inductive PyError where
  | valueError (arg : Nat)
  | unboundLocalError (var : String)
  | runtimeAmbiguous (count : Nat)
  | typeErrorUnexpectedKw (fn kw : String)
  | typeErrorMissingArg (fn param : String)
deriving DecidableEq

/-- Terminal outcome of a watch call: either a returned value or one of the
`RuntimeError` / `KeyError` exits of the source. -/
inductive WatchOutcome (ρ : Type) where
  | ok (r : ρ)
  | malformed
  | statusTimeout
  | completionTimeout
  | operationError (op : Operation)
  | noResponse (op : Operation)
  | keyError (k : String)
deriving DecidableEq

/-- Result of the completion loop (phase B). -/
inductive LoopBRes where
  | done (op : Operation)
  | keyErr
  | timeout
deriving DecidableEq

/-- Embeds the first polling loop shared by `operation.watch`, `utils.watch`
and `workload._watch`:

    time_elapsed = 0
    while not 'done' in operation:
        if time_elapsed > timeout % period: raise RuntimeError(status_timeout)
        time_elapsed += 1
        sleep(period)
        operation = request.execute()

The up-counter `time_elapsed` (which raises at the first value strictly above
`timeout % period`) is re-expressed as the down-counter
`remaining = (timeout % period) + 1 - time_elapsed`, which raises exactly when
it reaches 0; the callers pass `remaining = timeout % period + 1`.  `polls`
counts the `request.execute()` calls performed so far and indexes `fetch`.
Returns `none` for the status-timeout raise. -/
def loopA (fetch : Nat → Operation) (op : Operation) (remaining polls : Nat) :
    Option Operation × Nat :=
  if op.done?.isSome then (some op, polls)
  else
    match remaining with
    | 0 => (none, polls)
    | r + 1 => loopA fetch (fetch polls) r (polls + 1)

/-- Embeds the second polling loop shared by the three watch functions:

    time_elapsed = 0
    while operation['done'] is False:
        if time_elapsed > timeout % period: raise RuntimeError(completion_timeout)
        time_elapsed += 1
        sleep(period)
        operation = request.execute()

Same down-counter convention as `loopA`.  Reading `operation['done']` on a
payload without the key raises `KeyError`; a `done` value that is not
literally `False` exits the loop. -/
def loopB (fetch : Nat → Operation) (op : Operation) (remaining polls : Nat) :
    LoopBRes × Nat :=
  match op.done? with
  | none => (.keyErr, polls)
  | some true => (.done op, polls)
  | some false =>
    match remaining with
    | 0 => (.timeout, polls)
    | r + 1 => loopB fetch (fetch polls) r (polls + 1)

/-- Embeds `operation.watch(api, operation, period=5, timeout=60)` of
`src/psetup/operation.py`.  Returns the outcome together with the number of
`request.execute()` polls performed.  Branches, in source order:
the malformed-message raise (no name and no done key); the immediate return
of a nameless payload with a truthy done value; the `operation['name']`
KeyError when building the request for a nameless payload with a falsy done
value; the two polling loops; the error-entry raise; the missing-response
raise; and the final return of the whole operation payload. -/
def operationWatch (fetch : Nat → Operation) (operation : Operation)
    (period timeout : Nat) : WatchOutcome Operation × Nat :=
  if operation.name?.isNone && operation.done?.isNone then (.malformed, 0)
  else if operation.name?.isNone && operation.done?.getD false then (.ok operation, 0)
  else if operation.name?.isNone then (.keyError "name", 0)
  else
    match loopA fetch operation (timeout % period + 1) 0 with
    | (none, p) => (.statusTimeout, p)
    | (some op1, p) =>
      match loopB fetch op1 (timeout % period + 1) p with
      | (.timeout, p2) => (.completionTimeout, p2)
      | (.keyErr, p2) => (.keyError "done", p2)
      | (.done op2, p2) =>
        if op2.error?.isSome then (.operationError op2, p2)
        else if op2.response?.isNone then (.noResponse op2, p2)
        else (.ok op2, p2)

/-- Possible return values of `utils.watch` (an untyped Python function):
the whole initial operation dict (line 99), the empty dict `\x7b\x7d`
(line 128), or `operation['response']` (line 130). -/
inductive UtilsRet where
  | operation (op : Operation)
  | emptyDict
  | response (r : String)
deriving DecidableEq

/-- Embeds `utils.watch(api, operation, period=5, timeout=60)` of
`src/psetup/utils.py`.  Identical to `operation.watch` up to the final
response check: when the completed payload has no `response` key it returns
the empty dict instead of raising, and on success it returns
`operation['response']` instead of the whole payload. -/
def utilsWatch (fetch : Nat → Operation) (operation : Operation)
    (period timeout : Nat) : WatchOutcome UtilsRet × Nat :=
  if operation.name?.isNone && operation.done?.isNone then (.malformed, 0)
  else if operation.name?.isNone && operation.done?.getD false then
    (.ok (.operation operation), 0)
  else if operation.name?.isNone then (.keyError "name", 0)
  else
    match loopA fetch operation (timeout % period + 1) 0 with
    | (none, p) => (.statusTimeout, p)
    | (some op1, p) =>
      match loopB fetch op1 (timeout % period + 1) p with
      | (.timeout, p2) => (.completionTimeout, p2)
      | (.keyErr, p2) => (.keyError "done", p2)
      | (.done op2, p2) =>
        if op2.error?.isSome then (.operationError op2, p2)
        else
          match op2.response? with
          | none => (.ok .emptyDict, p2)
          | some r => (.ok (.response r), p2)

/-- Embeds `workload._watch` of `src/psetup/workload.py`, whose body is
textually identical to `utils.watch`. -/
abbrev workloadWatch := utilsWatch

/-! Matcher, Differ and reconcile traces. -/

/-- Mutating network calls issued by the reconcile functions. -/
inductive MutCall where
  | createProject
  | patchRole
  | enableService (s : String)
  | setIamPolicy
deriving DecidableEq

/-- Fields of an existing project payload read by `RootProject.diff` of
`src/psetup/project.py` (the `labels` entry is copied verbatim and plays no
role in the classification, so it is omitted). -/
structure ProjectInfo where
  name : String
  projectId : String
  displayName : String
deriving DecidableEq

namespace ProjectPy

/-- Embeds the classification of `RootProject.diff` of
`src/psetup/project.py`: given the accumulated search results, return `none`
for an empty list, the unique element for a singleton, and raise
`RuntimeError('There should be at most one project with label root:true in
the organization. found: n')` (modelled as `runtimeAmbiguous n`) for two or
more. -/
def rootProjectDiff (projects : List ProjectInfo) :
    Except PyError (Option ProjectInfo) :=
  match projects with
  | [] => .ok none
  | [p] => .ok (some p)
  | _ :: _ :: rest => .error (.runtimeAmbiguous (rest.length + 2))

/-- Service list of `RootProject.__init__` in `src/psetup/project.py`. -/
def rootServices : List String :=
  ["cloudapis.googleapis.com",
   "cloudbilling.googleapis.com",
   "cloudidentity.googleapis.com",
   "cloudkms.googleapis.com",
   "cloudresourcemanager.googleapis.com",
   "cloudtrace.googleapis.com",
   "datastore.googleapis.com",
   "iam.googleapis.com",
   "iamcredentials.googleapis.com",
   "logging.googleapis.com",
   "servicemanagement.googleapis.com",
   "serviceusage.googleapis.com",
   "storage-api.googleapis.com",
   "storage-component.googleapis.com",
   "storage.googleapis.com",
   "sts.googleapis.com",
   "secretmanager.googleapis.com",
   "billingbudgets.googleapis.com",
   "dns.googleapis.com"]

/-- Embeds the mutating-call trace of `generate_project` of
`src/psetup/project.py`: `diff` classifies the search results; on `None` the
create request is issued; then `service_enable` issues one
`services().enable` request per entry of `rootServices` and `access_control`
issues one `setIamPolicy` request — both unconditionally.  An exception from
`diff` propagates before any mutating call. -/
def generate_project (searchResults : List ProjectInfo) :
    Except PyError (List MutCall) :=
  match rootProjectDiff searchResults with
  | .error e => .error e
  | .ok d =>
    .ok ((if d.isNone then [MutCall.createProject] else []) ++
      rootServices.map MutCall.enableService ++ [MutCall.setIamPolicy])

end ProjectPy

/-- Python `set(a) != set(b)` comparison on string lists: equality of the two
underlying sets, i.e. mutual membership. -/
def setEq (a b : List String) : Bool :=
  a.all (fun x => b.contains x) && b.all (fun x => a.contains x)

/-- Resource fields of `role.Role` in `src/psetup/role.py`, in `__init__`
assignment order.  The embedding covers instances whose attributes are all
set (the reconcile path populates every field), so `includedPermissions` is a
plain list — the one attribute for which `isinstance(attr, list)` holds. -/
structure Role where
  role_id : String
  parent : String
  description : String
  title : String
  stage : String
  includedPermissions : List String
deriving DecidableEq

namespace RolePy

/-- Embeds `role._diff(declared, existing)` of `src/psetup/role.py`: iterate
the attributes of `existing.__dict__` in insertion order; a list-valued
attribute is compared with `set(existing) != set(declared)`, every other
attribute with plain inequality. -/
def _diff (declared existing : Role) : List String :=
  (if existing.role_id = declared.role_id then [] else ["role_id"]) ++
  (if existing.parent = declared.parent then [] else ["parent"]) ++
  (if existing.description = declared.description then [] else ["description"]) ++
  (if existing.title = declared.title then [] else ["title"]) ++
  (if existing.stage = declared.stage then [] else ["stage"]) ++
  (if setEq existing.includedPermissions declared.includedPermissions
    then [] else ["includedPermissions"])

/-- Embeds the mutating-call trace of `role._update_role` of
`src/psetup/role.py`: compute the mask, return with no call when it is empty,
otherwise issue exactly one patch request. -/
def _update_role_calls (declared existing : Role) : List MutCall :=
  if _diff declared existing = [] then [] else [MutCall.patchRole]

end RolePy

/-- Fields of `service_account.ServiceAccount` in
`src/psetup/service_account.py`, in `__init__` assignment order. -/
structure ServiceAccount where
  account_id : String
  project : String
  description : String
  display_name : String
deriving DecidableEq

namespace ServiceAccountPy

/-- Embeds `ServiceAccount.diff(self, update)` of
`src/psetup/service_account.py`: iterate `update.__dict__` in insertion
order and compare every attribute with plain inequality. -/
def diff (self update : ServiceAccount) : List String :=
  (if update.account_id = self.account_id then [] else ["account_id"]) ++
  (if update.project = self.project then [] else ["project"]) ++
  (if update.description = self.description then [] else ["description"]) ++
  (if update.display_name = self.display_name then [] else ["display_name"])

end ServiceAccountPy

/-- The `oidc` dict of a workload identity provider: a list of allowed
audiences plus the issuer URI.  Python compares such dicts values-wise, with
the nested list compared element-by-element in order, which is exactly the
derived structural equality. -/
structure Oidc where
  allowedAudiences : List String
  issuerUri : String
deriving DecidableEq

/-- Python dict equality for a string-keyed dict modelled as an association
list with distinct keys: same key set with equal values, i.e. mutual
membership of the key-value pairs. -/
def dictEq (a b : List (String × String)) : Bool :=
  a.all (fun kv => b.contains kv) && b.all (fun kv => a.contains kv)

/-- Fields of `workload.WorkloadIdentityProvider` in
`src/psetup/workload.py`, in `__init__` assignment order. -/
structure WorkloadIdentityProvider where
  provider_id : String
  parent : String
  attribute_condition : String
  attribute_mapping : List (String × String)
  description : String
  disabled : Bool
  display_name : String
  oidc : Oidc
deriving DecidableEq

namespace WorkloadPy

/-- Embeds `workload._diff(declared, existing)` of `src/psetup/workload.py`:
iterate the attributes of `existing.__dict__` in insertion order and compare
every attribute with plain inequality (`attribute_mapping` and `oidc` are
dicts, compared with Python dict equality). -/
def _diff (declared existing : WorkloadIdentityProvider) : List String :=
  (if existing.provider_id = declared.provider_id then [] else ["provider_id"]) ++
  (if existing.parent = declared.parent then [] else ["parent"]) ++
  (if existing.attribute_condition = declared.attribute_condition
    then [] else ["attribute_condition"]) ++
  (if dictEq existing.attribute_mapping declared.attribute_mapping
    then [] else ["attribute_mapping"]) ++
  (if existing.description = declared.description then [] else ["description"]) ++
  (if existing.disabled = declared.disabled then [] else ["disabled"]) ++
  (if existing.display_name = declared.display_name then [] else ["display_name"]) ++
  (if existing.oidc = declared.oidc then [] else ["oidc"])

end WorkloadPy

/-! Tag key and value lookup (`src/psetup/tag.py`). -/

/-- Fields of a `resourcemanager_v3.TagKey` read by `tag.get`. -/
structure TagKey where
  name : String
  parent : String
  short_name : String
  description : String
deriving DecidableEq

/-- Fields of a `resourcemanager_v3.TagValue` read by `tag.get_value`. -/
structure TagValue where
  name : String
  parent : String
  short_name : String
  description : String
deriving DecidableEq

namespace TagPy

/-- Embeds `tag.get(key)` of `src/psetup/tag.py`: iterate the listed tag keys
and overwrite `existing` with each result whose `short_name` matches the
declared key; raise `ValueError(0)` when none matched, otherwise return the
accumulated (hence last) match. -/
def get (listedKeys : List TagKey) (key : TagKey) : Except PyError TagKey :=
  match listedKeys.foldl
      (fun existing result =>
        if result.short_name = key.short_name then some result else existing)
      none with
  | none => .error (.valueError 0)
  | some existing => .ok existing

/-- Embeds `tag.get_value(value)` of `src/psetup/tag.py`, the same
last-match-wins fold over the listed tag values. -/
def get_value (listedValues : List TagValue) (value : TagValue) :
    Except PyError TagValue :=
  match listedValues.foldl
      (fun existing result =>
        if result.short_name = value.short_name then some result else existing)
      none with
  | none => .error (.valueError 0)
  | some existing => .ok existing

/-- Embeds `tag.diff(declared, existing)` of `src/psetup/tag.py` for tag
values: an empty mask when the descriptions agree, `['description']`
otherwise. -/
def diff (declared existing : TagValue) : List String :=
  if existing.description = declared.description then [] else ["description"]

/-- Reading a Python local variable: `none` models a name to which no
assignment has executed, so reading it raises `UnboundLocalError`. -/
def readLocal {α : Type} (var : String) (slot : Option α) : Except PyError α :=
  match slot with
  | none => .error (.unboundLocalError var)
  | some v => .ok v

/-- Embeds the tag-value phase of `generate_root_tag` of `src/psetup/tag.py`
(lines 497 to 506):

    try:
        value = get_value(declared_value)
    except ValueError as e:
        if e.args[0] == 0:
            value = create_value(value)
    mask = diff(declared=declared_value, existing=value)
    if mask == []: ...
    else: value = update_value(declared_value, mask)

The remote create and update calls are caller-supplied stubs.  In the
`except` branch the local `value` has never been assigned (the only prior
assignment to it is the one that raised), so the argument of
`create_value(value)` is read through `readLocal` with an empty slot. -/
def generate_root_tag_value (listedValues : List TagValue)
    (declaredValue : TagValue) (create_value update_value : TagValue → TagValue) :
    Except PyError TagValue :=
  match get_value listedValues declaredValue with
  | .ok value =>
    if diff declaredValue value = [] then .ok value
    else .ok (update_value declaredValue)
  | .error (.valueError 0) =>
    match readLocal "value" (none : Option TagValue) with
    | .error e => .error e
    | .ok v => .ok (create_value v)
  | .error e => .error e

end TagPy

/-! IAM policies (`src/psetup/utils.py` and `src/psetup/organization.py`). -/

/-- One IAM binding: a role and its member list. -/
abbrev Binding := String × List String

namespace UtilsPy

/-- Embeds one step of `IamPolicy.__init__` / `IamPolicy.add` of
`src/psetup/utils.py` on the `bindings` dict (modelled as an association
list in insertion order):

    if not binding['role'] in self.bindings:
        self.bindings.update(...)  # new key, appended
    else:
        self.bindings[binding['role']].extend(binding['members'])
-/
def addBinding (bindings : List Binding) (b : Binding) : List Binding :=
  if bindings.any (fun p => p.1 = b.1) then
    bindings.map (fun p => if p.1 = b.1 then (p.1, p.2 ++ b.2) else p)
  else bindings ++ [b]

/-- Embeds `IamPolicy.__init__(bindings)` of `src/psetup/utils.py`: fold
`addBinding` over the declared bindings, starting from the empty dict. -/
def iamPolicyInit (bindings : List Binding) : List Binding :=
  bindings.foldl addBinding []

end UtilsPy

namespace OrganizationPy

/-- Embeds the merge step of `organization.add_control` of
`src/psetup/organization.py`: `response.bindings.MergeFrom(policy.bindings)`
appends the extra bindings to the repeated `bindings` field of the fetched
policy, and the result is written back unchanged. -/
def add_control (current extra : List Binding) : List Binding :=
  current ++ extra

/-- Members bound to a role by a bindings list: the concatenation of the
member lists of every binding carrying that role. -/
def roleMembers (bindings : List Binding) (role : String) : List String :=
  ((bindings.filter (fun b => b.1 = role)).map Prod.snd).flatten

end OrganizationPy

/-! Keyword binding of the `operations.watch` calls in
`src/psetup/root_project.py`. -/

namespace OperationsPy

/-- Parameter list of `operations.watch(api, operation, period=5, timeout=60)`
of `src/psetup/operations.py`: each parameter name with a flag telling
whether it has a default. -/
def watchParams : List (String × Bool) :=
  [("api", false), ("operation", false), ("period", true), ("timeout", true)]

/-- Python keyword-argument binding for a call made with keyword arguments
only: a keyword that names no parameter raises
`TypeError(fn + ' got an unexpected keyword argument ...')`; otherwise a
parameter without default and without argument raises the missing-argument
`TypeError`. -/
def checkCallKwargs (fn : String) (params : List (String × Bool))
    (kwargs : List String) : Except PyError Unit :=
  match kwargs.find? (fun k => !(params.any (fun p => p.1 = k))) with
  | some k => .error (.typeErrorUnexpectedKw fn k)
  | none =>
    match params.find? (fun p => !p.2 && !(kwargs.contains p.1)) with
    | some p => .error (.typeErrorMissingArg fn p.1)
    | none => .ok ()

end OperationsPy

namespace RootProjectPy

/-- Keyword arguments of the call
`operations.watch(api=api, name=operation['name'])` issued by
`RootProject.create` and `RootProject.update` of
`src/psetup/root_project.py`. -/
def watchCallKwargs : List String := ["api", "name"]

/-- Embeds `RootProject.create` of `src/psetup/root_project.py` from the
point where the initial create response is in hand: the call
`operations.watch(api=api, name=...)` is bound against `watchParams`, and
only if binding succeeded would execution continue into the rest of the
method (the continuation `k`, which yields the project payload). -/
def create (k : Operation → Except PyError String) (initialOp : Operation) :
    Except PyError String :=
  match OperationsPy.checkCallKwargs "watch" OperationsPy.watchParams
      watchCallKwargs with
  | .error e => .error e
  | .ok _ => k initialOp

/-- Embeds `RootProject.update` of `src/psetup/root_project.py`, which issues
the same `operations.watch(api=api, name=...)` call after its patch
request. -/
def update (k : Operation → Except PyError String) (initialOp : Operation) :
    Except PyError String :=
  match OperationsPy.checkCallKwargs "watch" OperationsPy.watchParams
      watchCallKwargs with
  | .error e => .error e
  | .ok _ => k initialOp

end RootProjectPy

/-! Theorems. -/

/-- With a fetch stub that always returns a named, done-false payload, the
completion loop times out after exactly `remaining` further polls. -/
lemma loopB_always_false (nm : String) (r polls : Nat) :
    loopB (fun _ => ⟨some nm, some false, none, none⟩)
      ⟨some nm, some false, none, none⟩ r polls = (.timeout, polls + r) := by
  induction r generalizing polls with
  | zero => simp [loopB]
  | succ n ih =>
    rw [show polls + (n + 1) = (polls + 1) + n by omega]
    simpa [loopB] using ih (polls + 1)

/-- With a fetch stub that always returns a payload without a done key, the
status loop times out after exactly `remaining` further polls. -/
lemma loopA_never_done (nm : String) (r polls : Nat) :
    loopA (fun _ => ⟨some nm, none, none, none⟩)
      ⟨some nm, none, none, none⟩ r polls = (none, polls + r) := by
  induction r generalizing polls with
  | zero => simp [loopA]
  | succ n ih =>
    rw [show polls + (n + 1) = (polls + 1) + n by omega]
    simpa [loopA] using ih (polls + 1)

/-- C1: with the default `period = 5`, `timeout = 60`, a stub that always
reports `done = false` makes every watch variant raise the completion
timeout after exactly `(60 % 5) + 1 = 1` poll iteration, and a stub that
never shows a done flag makes it raise the status timeout after exactly 1
iteration — not the `ceil(60/5) = 12` iterations the claim (and the code's
own comment, which promises checks every 5 seconds during 60 seconds)
requires.  With `period = 7` the pattern `(timeout % period) + 1 = 5` shows
the bound really is the remainder, not the quotient; `ceil(60/7) = 9`. -/
theorem c1_watch_timeout_is_mod_not_ceil :
    operationWatch (fun _ => ⟨some "operations/op1", some false, none, none⟩)
        ⟨some "operations/op1", some false, none, none⟩ 5 60 =
      (.completionTimeout, 1) ∧
    utilsWatch (fun _ => ⟨some "operations/op1", some false, none, none⟩)
        ⟨some "operations/op1", some false, none, none⟩ 5 60 =
      (.completionTimeout, 1) ∧
    operationWatch (fun _ => ⟨some "operations/op1", none, none, none⟩)
        ⟨some "operations/op1", none, none, none⟩ 5 60 =
      (.statusTimeout, 1) ∧
    operationWatch (fun _ => ⟨some "operations/op1", some false, none, none⟩)
        ⟨some "operations/op1", some false, none, none⟩ 7 60 =
      (.completionTimeout, 5) ∧
    (60 + 5 - 1) / 5 = 12 ∧ (60 + 7 - 1) / 7 = 9 ∧
    (1 : Nat) ≠ 12 ∧ (5 : Nat) ≠ 9 := by
  refine ⟨?_, ?_, ?_, ?_, by norm_num, by norm_num, by norm_num, by norm_num⟩
  · simp [operationWatch, loopA, loopB_always_false "operations/op1" 1 0]
  · simp [utilsWatch, loopA, loopB_always_false "operations/op1" 1 0]
  · simp [operationWatch, loopA_never_done "operations/op1" 1 0]
  · simp [operationWatch, loopA, loopB_always_false "operations/op1" 5 0]

/-- C2 counterexample: `utils.watch` on an operation that is done with
neither an error nor a response entry returns the empty dict as a successful
result — the missing response is not reported as an error. -/
theorem c2_counterexample :
    utilsWatch (fun _ => ⟨some "operations/op9", some true, none, none⟩)
        ⟨some "operations/op9", some true, none, none⟩ 5 60 =
      (.ok .emptyDict, 0) ∧
    workloadWatch (fun _ => ⟨some "operations/op9", some true, none, none⟩)
        ⟨some "operations/op9", some true, none, none⟩ 5 60 =
      (.ok .emptyDict, 0) := by
  constructor <;> simp [utilsWatch, loopA, loopB]

/-- C2 amended: on a named operation that reaches `done = true`, an error
entry makes all three watch variants fail carrying the raw payload; a
missing response makes `operation.watch` raise the protocol-violation
`RuntimeError`, while `utils.watch` and `workload._watch` return the empty
dict as a successful result instead. -/
theorem c2_amended (fetch : Nat → Operation) (n e : String)
    (r : Option String) (period timeout : Nat) :
    operationWatch fetch ⟨some n, some true, some e, r⟩ period timeout =
      (.operationError ⟨some n, some true, some e, r⟩, 0) ∧
    utilsWatch fetch ⟨some n, some true, some e, r⟩ period timeout =
      (.operationError ⟨some n, some true, some e, r⟩, 0) ∧
    workloadWatch fetch ⟨some n, some true, some e, r⟩ period timeout =
      (.operationError ⟨some n, some true, some e, r⟩, 0) ∧
    operationWatch fetch ⟨some n, some true, none, none⟩ period timeout =
      (.noResponse ⟨some n, some true, none, none⟩, 0) ∧
    utilsWatch fetch ⟨some n, some true, none, none⟩ period timeout =
      (.ok .emptyDict, 0) ∧
    workloadWatch fetch ⟨some n, some true, none, none⟩ period timeout =
      (.ok .emptyDict, 0) := by
  refine ⟨?_, ?_, ?_, ?_, ?_, ?_⟩ <;> simp [operationWatch, utilsWatch, loopA, loopB]

/-- C7 counterexample: an initial payload with `done = true`, an error entry
and no name key is returned as a success by `operation.watch` — the error
entry is never inspected. -/
theorem c7_counterexample :
    operationWatch (fun _ => ⟨none, some true, some "deadline exceeded", none⟩)
        ⟨none, some true, some "deadline exceeded", none⟩ 5 60 =
      (.ok ⟨none, some true, some "deadline exceeded", none⟩, 0) ∧
    (⟨none, some true, some "deadline exceeded", none⟩ : Operation).error? =
      some "deadline exceeded" := by
  constructor
  · simp [operationWatch]
  · rfl

/-- C7 amended: an initial payload with a name and `done = true` is
classified with zero polls — an error entry yields a failure, a missing
response yields the protocol-violation failure, and a response with no
error is returned as success; but an initial payload with a truthy done
value and no name key is returned as-is with zero polls, regardless of any
error or response entry. -/
theorem c7_amended (fetch : Nat → Operation) (e r : Option String)
    (n : String) (period timeout : Nat) :
    operationWatch fetch ⟨none, some true, e, r⟩ period timeout =
      (.ok ⟨none, some true, e, r⟩, 0) ∧
    (∀ s, operationWatch fetch ⟨some n, some true, some s, r⟩ period timeout =
      (.operationError ⟨some n, some true, some s, r⟩, 0)) ∧
    operationWatch fetch ⟨some n, some true, none, none⟩ period timeout =
      (.noResponse ⟨some n, some true, none, none⟩, 0) ∧
    (∀ rr, operationWatch fetch ⟨some n, some true, none, some rr⟩ period timeout =
      (.ok ⟨some n, some true, none, some rr⟩, 0)) := by
  refine ⟨?_, fun s => ?_, ?_, fun rr => ?_⟩ <;>
    simp [operationWatch, loopA, loopB]

/-- Python set equality is reflexive. -/
lemma setEq_refl (l : List String) : setEq l l = true := by
  simp [setEq, List.all_eq_true]

/-- C3 counterexample: `tag.get` over two existing keys that both carry the
declared short name returns the second (last) one instead of raising an
ambiguity error. -/
theorem c3_counterexample :
    TagPy.get
        [⟨"tagKeys/101", "organizations/1", "root", "first"⟩,
         ⟨"tagKeys/202", "organizations/1", "root", "second"⟩]
        ⟨"", "organizations/1", "root", "the root key"⟩ =
      .ok ⟨"tagKeys/202", "organizations/1", "root", "second"⟩ ∧
    (⟨"tagKeys/202", "organizations/1", "root", "second"⟩ : TagKey) ≠
      ⟨"tagKeys/101", "organizations/1", "root", "first"⟩ := by
  constructor
  · rfl
  · decide

/-- C3 amended: `RootProject.diff` raises the fatal ambiguity
`RuntimeError`, carrying the number of matches, whenever two or more
projects match, and `generate_project` then propagates it before issuing any
mutating call; but `tag.get` auto-resolves a multiple match by returning the
last matching item. -/
theorem c3_amended :
    (∀ ps : List ProjectInfo, 2 ≤ ps.length →
      ProjectPy.rootProjectDiff ps = .error (.runtimeAmbiguous ps.length) ∧
      ProjectPy.generate_project ps = .error (.runtimeAmbiguous ps.length)) ∧
    (∀ (ks : List TagKey) (k key : TagKey), k.short_name = key.short_name →
      TagPy.get (ks ++ [k]) key = .ok k) := by
  constructor
  · intro ps hps
    match ps with
    | [] => simp at hps
    | [p] => simp at hps
    | p :: q :: rest =>
      refine ⟨?_, ?_⟩ <;>
        simp [ProjectPy.rootProjectDiff, ProjectPy.generate_project]
  · intro ks k key hk
    simp [TagPy.get, List.foldl_append, hk]

/-- Witness for `c3_amended` at concrete inputs. -/
theorem c3_amended_witness :
    ProjectPy.generate_project
        [⟨"projects/1", "root-1", "root"⟩, ⟨"projects/2", "root-2", "root"⟩] =
      .error (.runtimeAmbiguous 2) ∧
    TagPy.get
        [⟨"tagKeys/7", "organizations/9", "env", "a"⟩,
         ⟨"tagKeys/8", "organizations/9", "env", "b"⟩]
        ⟨"", "organizations/9", "env", "c"⟩ =
      .ok ⟨"tagKeys/8", "organizations/9", "env", "b"⟩ := by
  constructor
  · exact (c3_amended.1
      [⟨"projects/1", "root-1", "root"⟩, ⟨"projects/2", "root-2", "root"⟩]
      (by decide)).2
  · exact c3_amended.2 [⟨"tagKeys/7", "organizations/9", "env", "a"⟩]
      ⟨"tagKeys/8", "organizations/9", "env", "b"⟩
      ⟨"", "organizations/9", "env", "c"⟩ (by decide)

/-- C4 counterexample: a second reconciliation of the root project, whose
matcher finds exactly the one existing project, still issues one
service-enable call per declared service and one `setIamPolicy` call — not
zero mutating calls. -/
theorem c4_counterexample :
    ProjectPy.generate_project [⟨"projects/999", "root-42", "root"⟩] =
      .ok (ProjectPy.rootServices.map MutCall.enableService ++
        [MutCall.setIamPolicy]) ∧
    (ProjectPy.rootServices.map MutCall.enableService ++
      [MutCall.setIamPolicy]).length = 20 ∧
    ProjectPy.generate_project [⟨"projects/999", "root-42", "root"⟩] ≠
      .ok [] := by
  refine ⟨rfl, by decide,
    by simp [ProjectPy.generate_project, ProjectPy.rootProjectDiff,
      ProjectPy.rootServices]⟩

/-- C4 amended: when the matcher finds the project the create call is
skipped, and `_update_role` issues no patch when the diff mask is empty (in
particular on identical declared and existing roles); but `generate_project`
unconditionally issues the service-enable calls and a `setIamPolicy` call on
every run, so the second run performs mutating calls. -/
theorem c4_amended :
    (∀ p : ProjectInfo, ProjectPy.generate_project [p] =
      .ok (ProjectPy.rootServices.map MutCall.enableService ++
        [MutCall.setIamPolicy])) ∧
    (∀ declared existing : Role, RolePy._diff declared existing = [] →
      RolePy._update_role_calls declared existing = []) ∧
    (∀ r : Role, RolePy._update_role_calls r r = []) ∧
    (∀ p : ProjectInfo, ProjectPy.generate_project [p] ≠ .ok []) := by
  refine ⟨fun p => rfl, fun d e h => ?_, fun r => ?_, fun p => by simp [ProjectPy.generate_project, ProjectPy.rootProjectDiff, ProjectPy.rootServices]⟩
  · simp [RolePy._update_role_calls, h]
  · simp [RolePy._update_role_calls, RolePy._diff, setEq_refl]

/-- Witness for `c4_amended` at concrete inputs. -/
theorem c4_amended_witness :
    RolePy._diff
        ⟨"builderRole", "organizations/1", "d", "t", "GA", ["iam.roles.get"]⟩
        ⟨"builderRole", "organizations/1", "d", "t", "GA", ["iam.roles.get"]⟩ = [] ∧
    RolePy._update_role_calls
        ⟨"builderRole", "organizations/1", "d", "t", "GA", ["iam.roles.get"]⟩
        ⟨"builderRole", "organizations/1", "d", "t", "GA", ["iam.roles.get"]⟩ = [] ∧
    ProjectPy.generate_project [⟨"projects/1", "root-7", "root"⟩] ≠ .ok [] := by
  refine ⟨by decide, ?_, ?_⟩
  · exact c4_amended.2.1
      ⟨"builderRole", "organizations/1", "d", "t", "GA", ["iam.roles.get"]⟩
      ⟨"builderRole", "organizations/1", "d", "t", "GA", ["iam.roles.get"]⟩
      (by decide)
  · exact c4_amended.2.2.2 ⟨"projects/1", "root-7", "root"⟩

/-- C5 counterexample: extending the current policy `[A: [x]]` with the
extra bindings `[A: [z]]` writes back two separate bindings for role `A`,
not the single merged binding `[A: [x, z]]`. -/
theorem c5_counterexample :
    OrganizationPy.add_control [("roles/A", ["user:x"])] [("roles/A", ["user:z"])] =
      [("roles/A", ["user:x"]), ("roles/A", ["user:z"])] ∧
    OrganizationPy.add_control [("roles/A", ["user:x"])] [("roles/A", ["user:z"])] ≠
      [("roles/A", ["user:x", "user:z"])] := by
  exact ⟨rfl, by decide⟩

/-- C5 amended: `add_control` appends the extra bindings to the fetched
policy, so no existing role or member is ever dropped; extending
`[A: [x]]` with `[B: [y]]` yields the two bindings `[A: [x]], [B: [y]]`, and
extending with `[A: [z]]` leaves the members bound to role `A` as exactly
`[x, z]` — never `[z]` — although they are spread over two bindings entries
for `A` rather than merged into one. -/
theorem c5_amended :
    (∀ (current extra : List Binding) (b : Binding), b ∈ current →
      b ∈ OrganizationPy.add_control current extra) ∧
    (∀ (current extra : List Binding) (b : Binding), b ∈ extra →
      b ∈ OrganizationPy.add_control current extra) ∧
    OrganizationPy.add_control [("roles/A", ["user:x"])] [("roles/B", ["user:y"])] =
      [("roles/A", ["user:x"]), ("roles/B", ["user:y"])] ∧
    OrganizationPy.roleMembers
        (OrganizationPy.add_control [("roles/A", ["user:x"])]
          [("roles/A", ["user:z"])]) "roles/A" = ["user:x", "user:z"] ∧
    ((OrganizationPy.add_control [("roles/A", ["user:x"])]
        [("roles/A", ["user:z"])]).filter (fun bnd => bnd.1 = "roles/A")).length
      = 2 := by
  refine ⟨fun current extra b hb => ?_, fun current extra b hb => ?_, rfl, by decide,
    by decide⟩
  · exact List.mem_append_left _ hb
  · exact List.mem_append_right _ hb

/-- Witness for `c5_amended` at concrete inputs. -/
theorem c5_amended_witness :
    ("roles/A", ["user:x"]) ∈
      OrganizationPy.add_control [("roles/A", ["user:x"])] [("roles/A", ["user:z"])] ∧
    ("roles/A", ["user:z"]) ∈
      OrganizationPy.add_control [("roles/A", ["user:x"])] [("roles/A", ["user:z"])] := by
  constructor
  · exact c5_amended.1 [("roles/A", ["user:x"])] [("roles/A", ["user:z"])]
      ("roles/A", ["user:x"]) (by decide)
  · exact c5_amended.2.1 [("roles/A", ["user:x"])] [("roles/A", ["user:z"])]
      ("roles/A", ["user:z"]) (by decide)

/-- C6 counterexample: `workload._diff` on two providers that differ only in
the order of the allowed audiences inside `oidc` (the same elements as sets)
produces the diff-mask entry `oidc`. -/
theorem c6_counterexample :
    WorkloadPy._diff
        ⟨"oidcProv", "pools/p1", "cond", [("google.subject", "assertion.sub")],
         "d", false, "disp", ⟨["aud:a", "aud:b"], "https://issuer"⟩⟩
        ⟨"oidcProv", "pools/p1", "cond", [("google.subject", "assertion.sub")],
         "d", false, "disp", ⟨["aud:b", "aud:a"], "https://issuer"⟩⟩ = ["oidc"] ∧
    setEq ["aud:a", "aud:b"] ["aud:b", "aud:a"] = true ∧
    (["oidc"] : List String) ≠ [] := by
  exact ⟨by decide, by decide, by decide⟩

/-- C6 amended: `role._diff` compares its list attribute as sets (a
reordering alone yields an empty mask and a content difference always
yields the `includedPermissions` entry); but `workload._diff` compares every
attribute with plain equality, so a reordered allowed-audiences list inside
`oidc` produces the `oidc` entry, and `ServiceAccount.diff` likewise flags
exactly plain field inequality. -/
theorem c6_amended :
    (∀ (r : Role) (l : List String), setEq r.includedPermissions l = true →
      RolePy._diff ⟨r.role_id, r.parent, r.description, r.title, r.stage, l⟩ r
        = []) ∧
    (∀ declared existing : Role,
      setEq existing.includedPermissions declared.includedPermissions = false →
      "includedPermissions" ∈ RolePy._diff declared existing) ∧
    (∀ (p : WorkloadIdentityProvider) (l : List String),
      l ≠ p.oidc.allowedAudiences →
      "oidc" ∈ WorkloadPy._diff
        ⟨p.provider_id, p.parent, p.attribute_condition, p.attribute_mapping,
         p.description, p.disabled, p.display_name, ⟨l, p.oidc.issuerUri⟩⟩ p) ∧
    (∀ self update : ServiceAccount,
      ServiceAccountPy.diff self update = [] ↔ update = self) := by
  refine ⟨fun r l h => ?_, fun declared existing h => ?_, fun p l h => ?_,
    fun self update => ?_⟩
  · simp [RolePy._diff, h]
  · simp [RolePy._diff, h]
  · obtain ⟨pid, par, cond, am, desc, dis, disp, ⟨aud, iss⟩⟩ := p
    simp [WorkloadPy._diff, Oidc.mk.injEq, Ne.symm h]
  · obtain ⟨ua, ub, uc, ud⟩ := update
    obtain ⟨sa, sb, sc, sd⟩ := self
    by_cases h1 : ua = sa <;> by_cases h2 : ub = sb <;> by_cases h3 : uc = sc <;>
      by_cases h4 : ud = sd <;>
      simp [ServiceAccountPy.diff, h1, h2, h3, h4]

/-- Witness for `c6_amended` at concrete inputs. -/
theorem c6_amended_witness :
    RolePy._diff
        ⟨"r", "organizations/1", "d", "t", "GA", ["perm.b", "perm.a"]⟩
        ⟨"r", "organizations/1", "d", "t", "GA", ["perm.a", "perm.b"]⟩ = [] ∧
    "includedPermissions" ∈ RolePy._diff
        ⟨"r", "organizations/1", "d", "t", "GA", ["perm.a", "perm.c"]⟩
        ⟨"r", "organizations/1", "d", "t", "GA", ["perm.a", "perm.b"]⟩ ∧
    "oidc" ∈ WorkloadPy._diff
        ⟨"w", "pools/p", "c", [], "d", false, "n", ⟨["aud:2", "aud:1"], "iss"⟩⟩
        ⟨"w", "pools/p", "c", [], "d", false, "n", ⟨["aud:1", "aud:2"], "iss"⟩⟩ ∧
    (ServiceAccountPy.diff ⟨"sa", "proj", "d", "n"⟩ ⟨"sa", "proj", "d", "n"⟩ = []
      ↔ (⟨"sa", "proj", "d", "n"⟩ : ServiceAccount) = ⟨"sa", "proj", "d", "n"⟩) := by
  refine ⟨?_, ?_, ?_, ?_⟩
  · exact c6_amended.1
      ⟨"r", "organizations/1", "d", "t", "GA", ["perm.a", "perm.b"]⟩
      ["perm.b", "perm.a"] (by decide)
  · exact c6_amended.2.1
      ⟨"r", "organizations/1", "d", "t", "GA", ["perm.a", "perm.c"]⟩
      ⟨"r", "organizations/1", "d", "t", "GA", ["perm.a", "perm.b"]⟩ (by decide)
  · exact c6_amended.2.2.1
      ⟨"w", "pools/p", "c", [], "d", false, "n", ⟨["aud:1", "aud:2"], "iss"⟩⟩
      ["aud:2", "aud:1"] (by decide)
  · exact c6_amended.2.2.2 ⟨"sa", "proj", "d", "n"⟩ ⟨"sa", "proj", "d", "n"⟩

/-- Adding a binding whose role is already present leaves the key sequence
of the policy unchanged. -/
lemma addBinding_keys_present (pol : List Binding) (b : Binding)
    (h : pol.any (fun p => p.1 = b.1) = true) :
    (UtilsPy.addBinding pol b).map Prod.fst = pol.map Prod.fst := by
  simp only [UtilsPy.addBinding, h, if_true, List.map_map]
  refine List.map_congr_left ?_
  intro p hp
  by_cases hc : p.1 = b.1 <;> simp [hc]

/-- Adding a binding whose role is absent appends exactly that role key. -/
lemma addBinding_keys_absent (pol : List Binding) (b : Binding)
    (h : pol.any (fun p => p.1 = b.1) = false) :
    (UtilsPy.addBinding pol b).map Prod.fst = pol.map Prod.fst ++ [b.1] := by
  simp [UtilsPy.addBinding, h]

/-- One `addBinding` step preserves distinctness of the role keys. -/
lemma addBinding_nodup (pol : List Binding) (b : Binding)
    (h : (pol.map Prod.fst).Nodup) :
    ((UtilsPy.addBinding pol b).map Prod.fst).Nodup := by
  by_cases hc : pol.any (fun p => p.1 = b.1) = true
  · rw [addBinding_keys_present pol b hc]; exact h
  · have hf : pol.any (fun p => p.1 = b.1) = false := by
      revert hc; cases pol.any (fun p => p.1 = b.1) <;> simp
    rw [addBinding_keys_absent pol b hf]
    have hb : b.1 ∉ pol.map Prod.fst := by
      simp only [List.any_eq_false, decide_eq_true_eq] at hf
      intro hmem
      obtain ⟨p, hp, hfst⟩ := List.mem_map.mp hmem
      exact hf p hp hfst
    have hperm : (pol.map Prod.fst ++ [b.1]).Perm (b.1 :: pol.map Prod.fst) :=
      List.perm_append_singleton _ _
    rw [hperm.nodup_iff, List.nodup_cons]
    exact ⟨hb, h⟩

/-- Folding `addBinding` over any declaration list preserves distinctness of
the role keys. -/
lemma foldl_addBinding_nodup (bs acc : List Binding)
    (h : (acc.map Prod.fst).Nodup) :
    ((bs.foldl UtilsPy.addBinding acc).map Prod.fst).Nodup := by
  induction bs generalizing acc with
  | nil => simpa using h
  | cons b t ih => exact ih _ (addBinding_nodup _ _ h)

/-- C8 counterexample: constructing an `IamPolicy` from two declarations of
the same role concatenates the member lists — declaring member `group:g`
twice leaves it bound twice, not unioned into a set; and the merge step of
`add_control` gives an already-present role a second bindings entry, so its
role keys are no longer distinct. -/
theorem c8_counterexample :
    UtilsPy.iamPolicyInit [("roles/B", ["group:g"]), ("roles/B", ["group:g"])] =
      [("roles/B", ["group:g", "group:g"])] ∧
    (["group:g", "group:g"] : List String) ≠ ["group:g"] ∧
    (OrganizationPy.add_control [("roles/C", ["user:m"])]
        [("roles/C", ["user:n"])]).map Prod.fst = ["roles/C", "roles/C"] ∧
    ¬ ((OrganizationPy.add_control [("roles/C", ["user:m"])]
        [("roles/C", ["user:n"])]).map Prod.fst).Nodup := by
  exact ⟨by decide, by decide, by decide, by decide⟩

/-- C8 amended: within `utils.IamPolicy` role keys are unique by
construction, and declaring an already-present role keeps the key sequence
unchanged — its members are concatenated onto the single existing entry
(which can duplicate a member) rather than overwriting it or adding a
second entry; but the extend merge in `organization.add_control` appends
bindings wholesale, so an already-present role gains a second entry there. -/
theorem c8_amended :
    (∀ bs : List Binding, ((UtilsPy.iamPolicyInit bs).map Prod.fst).Nodup) ∧
    (∀ (pol : List Binding) (b : Binding),
      pol.any (fun p => p.1 = b.1) = true →
      (UtilsPy.addBinding pol b).map Prod.fst = pol.map Prod.fst) ∧
    UtilsPy.addBinding [("roles/A", ["user:u"])] ("roles/A", ["user:v"]) =
      [("roles/A", ["user:u", "user:v"])] ∧
    (∀ extra : List Binding,
      (OrganizationPy.add_control [("roles/C", ["user:m"])] extra).map Prod.fst =
        "roles/C" :: extra.map Prod.fst) := by
  refine ⟨fun bs => ?_, addBinding_keys_present, by decide, fun extra => ?_⟩
  · exact foldl_addBinding_nodup bs [] (by simp)
  · simp [OrganizationPy.add_control]

/-- Witness for `c8_amended` at concrete inputs. -/
theorem c8_amended_witness :
    (UtilsPy.addBinding [("roles/D", ["user:p"])] ("roles/D", ["user:q"])).map
      Prod.fst = ["roles/D"] := by
  exact c8_amended.2.1 [("roles/D", ["user:p"])] ("roles/D", ["user:q"]) (by decide)

/-- A fold that keeps the last matching tag value stays empty when nothing
matches. -/
lemma lastMatch_eq_none (listed : List TagValue) (d : TagValue)
    (h : ∀ r ∈ listed, r.short_name ≠ d.short_name) :
    listed.foldl
      (fun existing result =>
        if result.short_name = d.short_name then some result else existing)
      none = none := by
  induction listed with
  | nil => rfl
  | cons r t ih =>
    have hr : r.short_name ≠ d.short_name := h r (by simp)
    simp only [List.foldl_cons, hr, if_false]
    exact ih (fun x hx => h x (by simp [hx]))

/-- C9: whenever no existing tag value matches the declared short name, the
`except ValueError` recovery branch of `generate_root_tag` evaluates
`create_value(value)` with the local `value` still unassigned, so the
tag-value phase raises `UnboundLocalError` and never returns a value. -/
theorem c9_unbound_local (listed : List TagValue) (declared : TagValue)
    (create_value update_value : TagValue → TagValue)
    (h : ∀ r ∈ listed, r.short_name ≠ declared.short_name) :
    TagPy.generate_root_tag_value listed declared create_value update_value =
      .error (.unboundLocalError "value") := by
  simp [TagPy.generate_root_tag_value, TagPy.get_value,
    lastMatch_eq_none listed declared h, TagPy.readLocal]

/-- Witness for `c9_unbound_local` at a concrete input. -/
theorem c9_unbound_local_witness :
    TagPy.generate_root_tag_value []
        ⟨"", "tagKeys/1", "true", "the true value"⟩ id id =
      .error (.unboundLocalError "value") := by
  exact c9_unbound_local [] ⟨"", "tagKeys/1", "true", "the true value"⟩ id id
    (by simp)

/-- C10: both `RootProject.create` and `RootProject.update` of
`root_project.py` call `operations.watch` with the keyword argument `name`,
which the signature `watch(api, operation, period, timeout)` does not
accept, so — whatever the rest of the method (the continuation `k`) would
do — each call raises `TypeError` for the unexpected keyword before any
polling occurs and never returns a project payload. -/
theorem c10_watch_call_type_error
    (k : Operation → Except PyError String) (initialOp : Operation) :
    RootProjectPy.create k initialOp =
      .error (.typeErrorUnexpectedKw "watch" "name") ∧
    RootProjectPy.update k initialOp =
      .error (.typeErrorUnexpectedKw "watch" "name") ∧
    (∀ s, RootProjectPy.create k initialOp ≠ .ok s) ∧
    (∀ s, RootProjectPy.update k initialOp ≠ .ok s) := by
  refine ⟨rfl, rfl, fun s hs => ?_, fun s hs => ?_⟩ <;>
    simp [RootProjectPy.create, RootProjectPy.update, OperationsPy.checkCallKwargs,
      OperationsPy.watchParams, RootProjectPy.watchCallKwargs] at hs

end Psetup
